import Mathlib

/-!
Verification of the commerce-service inventory reservation and order
fulfillment logic (services/commerce: service/inventory_service.py,
service/cart_service.py, service/order_service.py, core/redis_client.py,
models/inventory.py, models/order.py).

Quantities are Python integers, embedded as Int. The database of inventory
rows is embedded as an association list keyed by SKU; each mutating service
method is a function from the database to a new database together with its
return value, and raised HTTPExceptions become an error result.
-/

/-- Raised HTTPExceptions, by status code: 404 and 400. -/
inductive HTTPError where
  | notFound
  | badRequest
deriving Repr, DecidableEq

/-- One inventory row (models/inventory.py): stock counters for a SKU. -/
structure Inventory where
  quantity : Int
  reserved_quantity : Int
deriving Repr, DecidableEq

/-- The property `Inventory.available_quantity`:
`return max(0, self.quantity - self.reserved_quantity)`. -/
def Inventory.available_quantity (inv : Inventory) : Int :=
  max 0 (inv.quantity - inv.reserved_quantity)

/-- The inventory table, keyed by SKU. -/
abbrev Db := List (String × Inventory)

/-- `self.db.query(Inventory).filter(Inventory.sku == sku).first()`. -/
def getInventory (db : Db) (sku : String) : Option Inventory :=
  (db.find? (fun p => p.fst == sku)).map Prod.snd

/-- Committing a mutated row back: replaces the first row with this SKU. -/
def setInventory (db : Db) (sku : String) (inv : Inventory) : Db :=
  match db with
  | [] => []
  | p :: rest =>
    if p.fst == sku then (sku, inv) :: rest else p :: setInventory rest sku inv

/-- `InventoryService.adjust_stock`: 404 when the SKU is missing; computes
`new_quantity = quantity + adjustment`; 400 when `new_quantity < 0`;
otherwise stores `new_quantity` (reserved_quantity untouched). -/
def adjust_stock (db : Db) (sku : String) (adjustment : Int) :
    Except HTTPError Db :=
  match getInventory db sku with
  | none => .error .notFound
  | some inv =>
    let new_quantity := inv.quantity + adjustment
    if new_quantity < 0 then .error .badRequest
    else .ok (setInventory db sku { inv with quantity := new_quantity })

/-- `InventoryService.reserve_stock`: 404 when the SKU is missing; 400 when
`available_quantity < quantity`; otherwise `reserved_quantity += quantity`. -/
def reserve_stock (db : Db) (sku : String) (quantity : Int) :
    Except HTTPError Db :=
  match getInventory db sku with
  | none => .error .notFound
  | some inv =>
    if inv.available_quantity < quantity then .error .badRequest
    else
      .ok (setInventory db sku
        { inv with reserved_quantity := inv.reserved_quantity + quantity })

/-- `InventoryService.release_stock`: returns False when the SKU is missing;
otherwise `reserved_quantity = max(0, reserved_quantity - quantity)`. -/
def release_stock (db : Db) (sku : String) (quantity : Int) : Bool × Db :=
  match getInventory db sku with
  | none => (false, db)
  | some inv =>
    (true, setInventory db sku
      { inv with reserved_quantity := max 0 (inv.reserved_quantity - quantity) })

/-- `InventoryService.confirm_reservation`: returns False when the SKU is
missing; otherwise subtracts `quantity` from both counters and clamps each
at 0 (`max(0, ...)`). -/
def confirm_reservation (db : Db) (sku : String) (quantity : Int) :
    Bool × Db :=
  match getInventory db sku with
  | none => (false, db)
  | some inv =>
    (true, setInventory db sku
      { quantity := max 0 (inv.quantity - quantity)
        reserved_quantity := max 0 (inv.reserved_quantity - quantity) })

/-- The record invariant stated by the spec data model:
`0 ≤ reservedQuantity ≤ quantity`. -/
def invariantOk (inv : Inventory) : Prop :=
  0 ≤ inv.reserved_quantity ∧ inv.reserved_quantity ≤ inv.quantity

instance (inv : Inventory) : Decidable (invariantOk inv) := by
  unfold invariantOk
  infer_instance

/-- One step of a sequence of Reserve calls on a fixed SKU, accumulating the
sum of the quantities of the successful calls; a failed call changes
nothing. -/
def reserveStep (sku : String) (st : Db × Int) (q : Int) : Db × Int :=
  match reserve_stock st.fst sku q with
  | .ok db2 => (db2, st.snd + q)
  | .error _ => st

/-- Runs a sequence of Reserve calls on one SKU, returning the final database
and the sum of the quantities of the successful calls. -/
def runReserves (db : Db) (sku : String) (qs : List Int) : Db × Int :=
  qs.foldl (reserveStep sku) (db, 0)

/-- Order statuses (models/order.py OrderStatus). -/
inductive OrderStatus where
  | pending
  | confirmed
  | processing
  | shipped
  | delivered
  | cancelled
  | returned
  | refunded
deriving Repr, DecidableEq

/-- The `valid_transitions` dict in `OrderService.update_order_status`. -/
def valid_transitions : OrderStatus → List OrderStatus
  | .pending => [.confirmed, .cancelled]
  | .confirmed => [.processing, .cancelled]
  | .processing => [.shipped]
  | .shipped => [.delivered]
  | .delivered => [.returned]
  | .cancelled => []
  | .returned => [.refunded]
  | .refunded => []

/-- One order line (models/order.py OrderItem); only the fields the claims
concern. -/
structure OrderItem where
  sku : Option String
  quantity : Int
deriving Repr, DecidableEq

/-- An order (models/order.py Order); only the fields the claims concern. -/
structure OrderRec where
  status : OrderStatus
  items : List OrderItem
deriving Repr, DecidableEq

/-- `OrderService.update_order_status`: rejects with 400 when the new status
is not in `valid_transitions` for the current status, otherwise sets the
status. It performs no inventory mutation, so the database passes through
unchanged. -/
def update_order_status (db : Db) (order : OrderRec)
    (new_status : OrderStatus) : Except HTTPError (Db × OrderRec) :=
  if (valid_transitions order.status).contains new_status then
    .ok (db, { order with status := new_status })
  else .error .badRequest

/-- `OrderService.cancel_order`: only PENDING or CONFIRMED orders may be
cancelled (else 400); for every line with a SKU it calls
`adjust_stock(sku, quantity)`, swallowing per-line failures; then sets the
status to CANCELLED. -/
def cancel_order (db : Db) (order : OrderRec) :
    Except HTTPError (Db × OrderRec) :=
  if order.status = .pending ∨ order.status = .confirmed then
    let db2 := order.items.foldl (fun d item =>
      match item.sku with
      | some sku =>
        match adjust_stock d sku item.quantity with
        | .ok d2 => d2
        | .error _ => d
      | none => d) db
    .ok (db2, { order with status := .cancelled })
  else .error .badRequest

/-- The per-line body of the restock loop in `OrderService.cancel_order`:
a line with a SKU is restocked through `adjust_stock`, a per-line failure
is swallowed, a line without a SKU is skipped. -/
def cancelRestockStep (d : Db) (item : OrderItem) : Db :=
  match item.sku with
  | some sku =>
    match adjust_stock d sku item.quantity with
    | .ok d2 => d2
    | .error _ => d
  | none => d

/-- The total quantity the cancel loop intends to return to a given SKU:
the sum of the quantities of the order lines bearing that SKU. -/
def restockTotal : List OrderItem → String → Int
  | [], _ => 0
  | it :: rest, s =>
    (if it.sku = some s then it.quantity else 0) + restockTotal rest s

/-- One cart line (the dicts CartService stores in Redis); only the fields
the claims concern. -/
structure CartItem where
  product_id : Nat
  sku : Option String
  quantity : Int
deriving Repr, DecidableEq

/-- `CartService.confirm_cart_for_checkout`: for each line with a SKU whose
reservation key is no longer live, attempt `reserve_stock`; any failure
aborts the whole checkout with 400. `live` is the set of product ids whose
reservation keys are still present in Redis. -/
def confirm_cart : Db → List Nat → List CartItem → Except HTTPError Db
  | db, _, [] => .ok db
  | db, live, item :: rest =>
    match item.sku with
    | none => confirm_cart db live rest
    | some sku =>
      if live.contains item.product_id then confirm_cart db live rest
      else
        match reserve_stock db sku item.quantity with
        | .ok db2 => confirm_cart db2 live rest
        | .error _ => .error .badRequest

/-- The confirmation loop inside `OrderService.create_order`: for every cart
line with a SKU it calls `confirm_reservation`, discarding the returned
Bool. -/
def confirmLoop (db : Db) (items : List CartItem) : Db :=
  items.foldl (fun d item =>
    match item.sku with
    | some sku => (confirm_reservation d sku item.quantity).snd
    | none => d) db

/-- `OrderService.create_order` (promotion-free path): 400 on an empty cart;
runs `confirm_cart_for_checkout` (wrapping its failure as 400); then runs
the confirmation loop and persists the order with status PENDING holding
every cart line, regardless of the Bool each `confirm_reservation`
returned. -/
def create_order (db : Db) (live : List Nat) (items : List CartItem) :
    Except HTTPError (Db × OrderRec) :=
  if items.isEmpty then .error .badRequest
  else
    match confirm_cart db live items with
    | .error _ => .error .badRequest
    | .ok db1 =>
      .ok (confirmLoop db1 items,
        { status := .pending
          items := items.map (fun it => { sku := it.sku, quantity := it.quantity }) })

/-- `next((item for item in cart if item.product_id == product_id), None)`. -/
def findCartItem (cart : List CartItem) (product_id : Nat) : Option CartItem :=
  cart.find? (fun it => it.product_id == product_id)

/-- Mutating the found cart line in place: sets the quantity of the first
line with this product id. -/
def setCartQty : List CartItem → Nat → Int → List CartItem
  | [], _, _ => []
  | it :: rest, pid, q =>
    if it.product_id == pid then { it with quantity := q } :: rest
    else it :: setCartQty rest pid q

/-- `CartService.update_quantity`: 404 when the product is not in the cart;
computes `quantity_diff = new_quantity - old_quantity`; when the line has a
SKU and the diff is positive it calls `reserve_stock` (a failure becomes 400
and the cart is not saved), when negative it calls `release_stock` with the
absolute value; only then is the cart line set to the new quantity and
saved. -/
def update_quantity (db : Db) (cart : List CartItem) (product_id : Nat)
    (new_quantity : Int) : Except HTTPError (Db × List CartItem) :=
  match findCartItem cart product_id with
  | none => .error .notFound
  | some item =>
    let quantity_diff := new_quantity - item.quantity
    match item.sku with
    | some sku =>
      if quantity_diff > 0 then
        match reserve_stock db sku quantity_diff with
        | .ok db2 => .ok (db2, setCartQty cart product_id new_quantity)
        | .error _ => .error .badRequest
      else if quantity_diff < 0 then
        .ok ((release_stock db sku (-quantity_diff)).snd,
             setCartQty cart product_id new_quantity)
      else .ok (db, setCartQty cart product_id new_quantity)
    | none => .ok (db, setCartQty cart product_id new_quantity)

/-- `CartService.RESERVATION_TTL = 900` (the comment there reads: 15 minutes
in seconds). -/
def RESERVATION_TTL : Nat := 900

/-- The value `cart_service.py` passes as `expires_in` when storing a
reservation key: `int(self.RESERVATION_TTL / 60)`. `RedisClient.set_cache`
hands `expires_in` directly to `redis setex`, whose unit is seconds, so this
number is the reservation TTL in seconds actually stored. -/
def reservation_expiry_seconds : Nat := RESERVATION_TTL / 60

/-- Modelled from the spec wording of the allowed order-status transition
table: pending to confirmed or cancelled, confirmed to processing or
cancelled, processing to shipped, shipped to delivered, delivered to
returned, returned to refunded; cancelled and refunded terminal. -/
def specAllowedTransition : OrderStatus → OrderStatus → Bool
  | .pending, .confirmed => true
  | .pending, .cancelled => true
  | .confirmed, .processing => true
  | .confirmed, .cancelled => true
  | .processing, .shipped => true
  | .shipped, .delivered => true
  | .delivered, .returned => true
  | .returned, .refunded => true
  | _, _ => false

/-- Unfolding one row of a lookup. -/
theorem getInventory_cons (p : String × Inventory) (rest : Db) (sku : String) :
    getInventory (p :: rest) sku =
      if p.fst == sku then some p.snd else getInventory rest sku := by
  by_cases hp : p.fst == sku <;> simp [getInventory, List.find?, hp]

/-- Looking up the SKU just stored yields the stored row, provided the SKU
was present. -/
theorem getInventory_setInventory_self (db : Db) (sku : String)
    (inv w : Inventory) (h : getInventory db sku = some w) :
    getInventory (setInventory db sku inv) sku = some inv := by
  induction db with
  | nil => simp [getInventory] at h
  | cons p rest ih =>
    by_cases hp : p.fst == sku
    · simp [setInventory, hp, getInventory_cons]
    · rw [getInventory_cons, if_neg (by simp [hp])] at h
      rw [setInventory]
      rw [if_neg (by simp [hp]), getInventory_cons, if_neg (by simp [hp])]
      exact ih h

/-- Looking up a different SKU after a store is unchanged. -/
theorem getInventory_setInventory_ne (db : Db) (sku sku2 : String)
    (inv : Inventory) (h : sku2 ≠ sku) :
    getInventory (setInventory db sku inv) sku2 = getInventory db sku2 := by
  induction db with
  | nil => simp [setInventory]
  | cons p rest ih =>
    by_cases hp : p.fst == sku
    · have hps : p.fst = sku := by simpa using hp
      have hne : (sku == sku2) = false := by
        simpa using fun hc => h hc.symm
      rw [setInventory]
      rw [if_pos hp, getInventory_cons, getInventory_cons]
      simp [hne, hps]
    · rw [setInventory]
      rw [if_neg (by simp [hp]), getInventory_cons, getInventory_cons]
      by_cases hq : p.fst == sku2
      · simp [hq]
      · simp [hq, ih]

/-- C4: the order status transition relation is exactly the claimed table
(pending to confirmed or cancelled, confirmed to processing or cancelled,
processing to shipped, shipped to delivered, delivered to returned,
returned to refunded, cancelled and refunded terminal); every other pair is
rejected with an error and no updated order is produced. -/
theorem update_order_status_table (db : Db) (order : OrderRec)
    (new_status : OrderStatus) :
    update_order_status db order new_status =
      if specAllowedTransition order.status new_status then
        .ok (db, { order with status := new_status })
      else .error .badRequest := by
  rcases order with ⟨s, items⟩
  cases s <;> cases new_status <;> rfl

/-- C5 counterexample: moving a pending one-line order to cancelled through
update_order_status leaves the inventory database exactly as it was; in
particular the quantity of the line SKU is not increased by the line
quantity (5 stays 5, not 7). -/
theorem transition_cancelled_no_restock_cex :
    update_order_status [("A", ⟨5, 0⟩)] ⟨.pending, [⟨some "A", 2⟩]⟩ .cancelled =
      .ok ([("A", ⟨5, 0⟩)], ⟨.cancelled, [⟨some "A", 2⟩]⟩) ∧
    ([("A", (⟨5, 0⟩ : Inventory))] : Db) ≠ [("A", ⟨7, 0⟩)] :=
  ⟨rfl, by decide⟩


/-- C6 counterexample: with quantity 5 and reserved_quantity 0 (no prior
reservation), confirm_reservation of 3 returns True rather than an error,
reduces quantity to 2, and clamps reserved_quantity at 0, so
the equation reserved_after + qty = reserved_before fails (0 + 3 is not 0). -/
theorem confirm_reservation_cex :
    confirm_reservation [("A", ⟨5, 0⟩)] "A" 3 = (true, [("A", ⟨2, 0⟩)]) ∧
    (0 : Int) + 3 ≠ 0 := ⟨rfl, by norm_num⟩

/-- C6 amended: on any existing record confirm_reservation returns True (it
never checks for a prior matching reservation); when qty is at most the
reserved quantity and the record invariant holds, it reduces quantity and
reserved_quantity each by exactly qty. -/
theorem confirm_reservation_spec (db : Db) (sku : String) (qty : Int)
    (inv : Inventory) (h : getInventory db sku = some inv) :
    (confirm_reservation db sku qty).fst = true ∧
    (qty ≤ inv.reserved_quantity → inv.reserved_quantity ≤ inv.quantity →
      (confirm_reservation db sku qty).snd =
        setInventory db sku ⟨inv.quantity - qty, inv.reserved_quantity - qty⟩) := by
  constructor
  · simp [confirm_reservation, h]
  · intro h1 h2
    have hq : max 0 (inv.quantity - qty) = inv.quantity - qty :=
      max_eq_right (by omega)
    have hr : max 0 (inv.reserved_quantity - qty) = inv.reserved_quantity - qty :=
      max_eq_right (by omega)
    simp [confirm_reservation, h, hq, hr]

/-- Witness for confirm_reservation_spec at a concrete database. -/
theorem confirm_reservation_spec_witness :
    (confirm_reservation [("A", (⟨9, 4⟩ : Inventory))] "A" 4).snd =
      setInventory [("A", ⟨9, 4⟩)] "A" ⟨5, 0⟩ :=
  (confirm_reservation_spec [("A", ⟨9, 4⟩)] "A" 4 ⟨9, 4⟩ rfl).2
    (by norm_num) (by norm_num)

/-- C7 counterexample: with quantity 5 and reserved_quantity 5, an
adjustment of -3 would make quantity (2) smaller than reserved_quantity (5),
yet adjust_stock accepts it. -/
theorem adjust_stock_cex :
    adjust_stock [("C", ⟨5, 5⟩)] "C" (-3) = .ok [("C", ⟨2, 5⟩)] ∧
    (2 : Int) < 5 := ⟨rfl, by norm_num⟩

/-- C7 amended: adjust_stock changes quantity only, leaving
reserved_quantity unchanged, and is rejected (400, record unchanged)
exactly when applying the delta would make quantity negative; it is not
rejected merely for dropping quantity below reserved_quantity. -/
theorem adjust_stock_spec (db : Db) (sku : String) (delta : Int)
    (inv : Inventory) (h : getInventory db sku = some inv) :
    (inv.quantity + delta < 0 → adjust_stock db sku delta = .error .badRequest) ∧
    (0 ≤ inv.quantity + delta →
      adjust_stock db sku delta =
        .ok (setInventory db sku { inv with quantity := inv.quantity + delta })) := by
  constructor
  · intro hlt
    simp [adjust_stock, h, hlt]
  · intro hge
    simp [adjust_stock, h, not_lt.mpr hge]

/-- Witness for adjust_stock_spec at a concrete database. -/
theorem adjust_stock_spec_witness :
    adjust_stock [("C", (⟨4, 1⟩ : Inventory))] "C" 2 =
      .ok (setInventory [("C", ⟨4, 1⟩)] "C" ⟨6, 1⟩) :=
  (adjust_stock_spec [("C", ⟨4, 1⟩)] "C" 2 ⟨4, 1⟩ rfl).2 (by norm_num)

/-- C8: the cart service stores every reservation key with the value
int(RESERVATION_TTL / 60) passed straight to redis setex, whose unit is
seconds — so the stored expiry is 15 seconds, not the 900 seconds (15
minutes) that RESERVATION_TTL encodes and the documentation states. -/
theorem reservation_ttl_not_900 :
    reservation_expiry_seconds = 15 ∧ RESERVATION_TTL = 900 ∧
    reservation_expiry_seconds ≠ RESERVATION_TTL := by decide

/-- C10: with no inventory record for the SKU, reserve_stock raises a 404
not-found error, while release_stock and confirm_reservation return False
and leave the database unchanged. -/
theorem missing_sku_behavior (db : Db) (sku : String) (qty : Int)
    (h : getInventory db sku = none) :
    reserve_stock db sku qty = .error .notFound ∧
    release_stock db sku qty = (false, db) ∧
    confirm_reservation db sku qty = (false, db) := by
  refine ⟨?_, ?_, ?_⟩ <;>
    simp [reserve_stock, release_stock, confirm_reservation, h]

/-- Witness for missing_sku_behavior on the empty database. -/
theorem missing_sku_behavior_witness :
    reserve_stock [] "Z" 1 = .error .notFound ∧
    release_stock [] "Z" 1 = (false, []) ∧
    confirm_reservation [] "Z" 1 = (false, []) :=
  missing_sku_behavior [] "Z" 1 rfl

/-- Evaluation of reserve_stock on a present SKU. -/
theorem reserve_stock_eq (db : Db) (sku : String) (q : Int) (inv : Inventory)
    (h : getInventory db sku = some inv) :
    reserve_stock db sku q =
      if inv.available_quantity < q then .error .badRequest
      else .ok (setInventory db sku
        { inv with reserved_quantity := inv.reserved_quantity + q }) := by
  unfold reserve_stock
  rw [h]

/-- Evaluation of release_stock on a present SKU. -/
theorem release_stock_eq (db : Db) (sku : String) (q : Int) (inv : Inventory)
    (h : getInventory db sku = some inv) :
    release_stock db sku q =
      (true, setInventory db sku
        { inv with reserved_quantity := max 0 (inv.reserved_quantity - q) }) := by
  unfold release_stock
  rw [h]

/-- Evaluation of confirm_reservation on a present SKU. -/
theorem confirm_reservation_eq (db : Db) (sku : String) (q : Int)
    (inv : Inventory) (h : getInventory db sku = some inv) :
    confirm_reservation db sku q =
      (true, setInventory db sku
        ⟨max 0 (inv.quantity - q), max 0 (inv.reserved_quantity - q)⟩) := by
  unfold confirm_reservation
  rw [h]

/-- Evaluation of adjust_stock on a present SKU. -/
theorem adjust_stock_eq (db : Db) (sku : String) (delta : Int)
    (inv : Inventory) (h : getInventory db sku = some inv) :
    adjust_stock db sku delta =
      if inv.quantity + delta < 0 then .error .badRequest
      else .ok (setInventory db sku { inv with quantity := inv.quantity + delta }) := by
  unfold adjust_stock
  rw [h]

/-- Lookup in a one-row database. -/
theorem getInventory_singleton (sku : String) (inv : Inventory) :
    getInventory [(sku, inv)] sku = some inv := by
  rw [getInventory_cons]
  simp

/-- Store into a one-row database. -/
theorem setInventory_singleton (sku : String) (inv w : Inventory) :
    setInventory [(sku, w)] sku inv = [(sku, inv)] := by
  simp [setInventory]

/-- One Reserve call on a one-row database, as a case split on the
availability check. -/
theorem reserveStep_singleton (sku : String) (Q r s q : Int) :
    reserveStep sku ([(sku, ⟨Q, r⟩)], s) q =
      if max 0 (Q - r) < q then ([(sku, ⟨Q, r⟩)], s)
      else ([(sku, ⟨Q, r + q⟩)], s + q) := by
  unfold reserveStep
  rw [reserve_stock_eq [(sku, ⟨Q, r⟩)] sku q ⟨Q, r⟩ (getInventory_singleton sku ⟨Q, r⟩)]
  by_cases hc : max 0 (Q - r) < q
  · simp only [Inventory.available_quantity, if_pos hc]
  · simp only [Inventory.available_quantity, if_neg hc]
    rw [setInventory_singleton]

/-- Sum of the successful Reserve quantities on a fixed SKU never exceeds
the quantity, by induction with the reserved counter tracking the sum. -/
theorem runReserves_aux (sku : String) (Q : Int) :
    ∀ (qs : List Int) (r s : Int), s = r → r ≤ Q →
      (List.foldl (reserveStep sku) ([(sku, ⟨Q, r⟩)], s) qs).snd ≤ Q := by
  intro qs
  induction qs with
  | nil =>
    intro r s hs hr
    simpa [hs] using hr
  | cons q qs ih =>
    intro r s hs hr
    rw [List.foldl_cons, reserveStep_singleton]
    by_cases hc : max 0 (Q - r) < q
    · rw [if_pos hc]
      exact ih r s hs hr
    · rw [if_neg hc]
      have hmax : max 0 (Q - r) = Q - r := max_eq_right (by omega)
      rw [hmax] at hc
      exact ih (r + q) (s + q) (by omega) (by omega)

/-- C1: on a record satisfying the invariant, reserve_stock succeeds and
increments reserved_quantity by exactly qty when quantity minus
reserved_quantity is at least qty, and otherwise returns a 400
insufficient-stock error producing no new database; and over any sequence of
Reserve calls on one SKU starting from reserved_quantity 0, the sum of the
quantities of the successful calls never exceeds the initial quantity. -/
theorem reserve_stock_no_oversell (db : Db) (sku : String) (qty Q r : Int)
    (qs : List Int) :
    (getInventory db sku = some ⟨Q, r⟩ → r ≤ Q →
      ((qty ≤ Q - r →
          reserve_stock db sku qty = .ok (setInventory db sku ⟨Q, r + qty⟩)) ∧
       (Q - r < qty → reserve_stock db sku qty = .error .badRequest))) ∧
    (0 ≤ Q → (runReserves [(sku, ⟨Q, 0⟩)] sku qs).snd ≤ Q) := by
  constructor
  · intro h hr
    have hmax : Inventory.available_quantity ⟨Q, r⟩ = Q - r := by
      unfold Inventory.available_quantity
      dsimp only
      exact max_eq_right (by omega)
    constructor
    · intro hle
      rw [reserve_stock_eq db sku qty ⟨Q, r⟩ h, hmax, if_neg (by omega)]
    · intro hlt
      rw [reserve_stock_eq db sku qty ⟨Q, r⟩ h, hmax, if_pos (by omega)]
  · intro hQ
    unfold runReserves
    exact runReserves_aux sku Q qs 0 0 rfl hQ

/-- Witness for reserve_stock_no_oversell at a concrete database and a
concrete sequence of Reserve calls. -/
theorem reserve_stock_no_oversell_witness :
    reserve_stock [("A", (⟨10, 2⟩ : Inventory))] "A" 3 =
      .ok (setInventory [("A", ⟨10, 2⟩)] "A" ⟨10, 5⟩) ∧
    (runReserves [("A", ⟨10, 0⟩)] "A" [6, 5, 4]).snd ≤ 10 := by
  constructor
  · exact ((reserve_stock_no_oversell [("A", ⟨10, 2⟩)] "A" 3 10 2
      [6, 5, 4]).1 rfl (by decide)).1 (by decide)
  · exact (reserve_stock_no_oversell [("A", ⟨10, 2⟩)] "A" 3 10 2
      [6, 5, 4]).2 (by decide)

/-- C2 counterexample: a two-line cart whose second SKU has no inventory
record. Both reservation keys are live, so checkout validation passes; the
first line is confirmed (quantity 10 to 8, reserved 2 to 0), the second
confirm_reservation returns False, yet create_order still persists the order
with both lines and the first line's reserved_quantity is not restored. -/
theorem create_order_cex :
    create_order [("A", ⟨10, 2⟩)] [1, 2] [⟨1, some "A", 2⟩, ⟨2, some "B", 1⟩] =
      .ok ([("A", ⟨8, 0⟩)], ⟨.pending, [⟨some "A", 2⟩, ⟨some "B", 1⟩]⟩) ∧
    (confirm_reservation [("A", ⟨8, 0⟩)] "B" 1).fst = false :=
  ⟨rfl, rfl⟩

/-- C2 amended: create_order performs no compensating rollback. With a
two-line cart whose second SKU has no inventory record, the second line's
Confirm returns False, the failure is ignored, the order is persisted with
both lines, and the first line keeps its confirmed deduction (reserved and
quantity each down by its qty, not restored). -/
theorem create_order_no_rollback (Q r q1 q2 : Int)
    (h1 : q1 ≤ r) (h2 : r ≤ Q) :
    create_order [("A", ⟨Q, r⟩)] [1, 2] [⟨1, some "A", q1⟩, ⟨2, some "B", q2⟩] =
      .ok ([("A", ⟨Q - q1, r - q1⟩)],
           ⟨.pending, [⟨some "A", q1⟩, ⟨some "B", q2⟩]⟩) ∧
    (confirm_reservation [("A", ⟨Q - q1, r - q1⟩)] "B" q2).fst = false := by
  have hmq : max 0 (Q - q1) = Q - q1 := max_eq_right (by omega)
  have hmr : max 0 (r - q1) = r - q1 := max_eq_right (by omega)
  constructor
  · have hstep : create_order [("A", ⟨Q, r⟩)] [1, 2]
        [⟨1, some "A", q1⟩, ⟨2, some "B", q2⟩] =
        .ok ([("A", ⟨max 0 (Q - q1), max 0 (r - q1)⟩)],
             ⟨.pending, [⟨some "A", q1⟩, ⟨some "B", q2⟩]⟩) := rfl
    rw [hstep, hmq, hmr]
  · rfl

/-- Witness for create_order_no_rollback at concrete quantities. -/
theorem create_order_no_rollback_witness :
    create_order [("A", (⟨7, 5⟩ : Inventory))] [1, 2]
      [⟨1, some "A", 4⟩, ⟨2, some "B", 3⟩] =
      .ok ([("A", ⟨3, 1⟩)], ⟨.pending, [⟨some "A", 4⟩, ⟨some "B", 3⟩]⟩) ∧
    (confirm_reservation [("A", (⟨3, 1⟩ : Inventory))] "B" 3).fst = false :=
  create_order_no_rollback 7 5 4 3 (by decide) (by decide)

/-- C3 counterexample: the invariant 0 ≤ reserved_quantity ≤ quantity holds
before an adjust_stock of -1 on a record with quantity 4 and
reserved_quantity 4, the adjustment is accepted, and the invariant fails
afterwards (quantity 3 < reserved_quantity 4). -/
theorem ledger_invariant_cex :
    invariantOk ⟨4, 4⟩ ∧
    adjust_stock [("B", ⟨4, 4⟩)] "B" (-1) = .ok [("B", ⟨3, 4⟩)] ∧
    ¬ invariantOk ⟨3, 4⟩ :=
  ⟨by decide, rfl, by decide⟩

/-- C3 amended: on a record satisfying the invariant and for a non-negative
call quantity, reserve_stock, release_stock and confirm_reservation all
preserve 0 ≤ reserved_quantity ≤ quantity, and release_stock clamps at 0 so
over-release never drives reserved_quantity below 0; adjust_stock leaves
reserved_quantity unchanged and keeps quantity non-negative, but (as the
counterexample shows) need not preserve reserved_quantity ≤ quantity. -/
theorem ledger_invariant_preserved (db : Db) (sku : String) (qty delta : Int)
    (inv : Inventory) (h : getInventory db sku = some inv)
    (hinv : invariantOk inv) (hqty : 0 ≤ qty) :
    (∀ db2 : Db, reserve_stock db sku qty = .ok db2 →
      ∃ inv2, getInventory db2 sku = some inv2 ∧ invariantOk inv2) ∧
    (∃ inv2, getInventory (release_stock db sku qty).snd sku = some inv2 ∧
      invariantOk inv2) ∧
    (∃ inv2, getInventory (confirm_reservation db sku qty).snd sku = some inv2 ∧
      invariantOk inv2) ∧
    (∀ db2 : Db, adjust_stock db sku delta = .ok db2 →
      ∃ inv2, getInventory db2 sku = some inv2 ∧
        inv2.reserved_quantity = inv.reserved_quantity ∧ 0 ≤ inv2.quantity) := by
  obtain ⟨hr0, hrq⟩ := hinv
  have hav : inv.available_quantity = inv.quantity - inv.reserved_quantity := by
    unfold Inventory.available_quantity
    exact max_eq_right (by omega)
  refine ⟨?_, ?_, ?_, ?_⟩
  · intro db2 hok
    rw [reserve_stock_eq db sku qty inv h, hav] at hok
    by_cases hc : inv.quantity - inv.reserved_quantity < qty
    · rw [if_pos hc] at hok
      exact Except.noConfusion hok
    · rw [if_neg hc] at hok
      simp only [Except.ok.injEq] at hok
      subst hok
      refine ⟨_, getInventory_setInventory_self db sku _ inv h, ?_⟩
      unfold invariantOk
      dsimp only
      omega
  · rw [release_stock_eq db sku qty inv h]
    refine ⟨_, getInventory_setInventory_self db sku _ inv h, ?_⟩
    unfold invariantOk
    dsimp only
    constructor
    · exact le_max_left 0 _
    · exact max_le (by omega) (by omega)
  · rw [confirm_reservation_eq db sku qty inv h]
    refine ⟨_, getInventory_setInventory_self db sku _ inv h, ?_⟩
    unfold invariantOk
    dsimp only
    constructor
    · exact le_max_left 0 _
    · exact max_le_max le_rfl (by omega)
  · intro db2 hok
    rw [adjust_stock_eq db sku delta inv h] at hok
    by_cases hc : inv.quantity + delta < 0
    · rw [if_pos hc] at hok
      exact Except.noConfusion hok
    · rw [if_neg hc] at hok
      simp only [Except.ok.injEq] at hok
      subst hok
      refine ⟨_, getInventory_setInventory_self db sku _ inv h, rfl, ?_⟩
      dsimp only
      omega

/-- Witness for ledger_invariant_preserved: an over-release on a concrete
record keeps the invariant (reserved clamps at 0). -/
theorem ledger_invariant_preserved_witness :
    ∃ inv2, getInventory (release_stock [("A", (⟨5, 3⟩ : Inventory))] "A" 9).snd
        "A" = some inv2 ∧ invariantOk inv2 :=
  (ledger_invariant_preserved [("A", ⟨5, 3⟩)] "A" 9 (-2) ⟨5, 3⟩ rfl
    (by decide) (by decide)).2.1

/-- C9: for an item already in the cart carrying a SKU, update_quantity with
positive delta calls reserve_stock for the delta — on success the cart line
is set to the new quantity alongside the reserved stock, and on failure the
call returns a 400 error without producing any updated cart, leaving the
stored cart line at the old quantity; with negative delta it calls
release_stock for the absolute delta and sets the line to the new
quantity. -/
theorem update_quantity_spec (db : Db) (cart : List CartItem) (pid : Nat)
    (new_quantity : Int) (item : CartItem) (sku : String)
    (hfind : findCartItem cart pid = some item) (hsku : item.sku = some sku) :
    (new_quantity - item.quantity > 0 →
      ((∀ db2 : Db,
          reserve_stock db sku (new_quantity - item.quantity) = .ok db2 →
          update_quantity db cart pid new_quantity =
            .ok (db2, setCartQty cart pid new_quantity)) ∧
       (∀ e : HTTPError,
          reserve_stock db sku (new_quantity - item.quantity) = .error e →
          update_quantity db cart pid new_quantity = .error .badRequest))) ∧
    (new_quantity - item.quantity < 0 →
      update_quantity db cart pid new_quantity =
        .ok ((release_stock db sku (-(new_quantity - item.quantity))).snd,
             setCartQty cart pid new_quantity)) := by
  have heq : update_quantity db cart pid new_quantity =
      (if new_quantity - item.quantity > 0 then
         match reserve_stock db sku (new_quantity - item.quantity) with
         | .ok db2 => .ok (db2, setCartQty cart pid new_quantity)
         | .error _ => .error .badRequest
       else if new_quantity - item.quantity < 0 then
         .ok ((release_stock db sku (-(new_quantity - item.quantity))).snd,
              setCartQty cart pid new_quantity)
       else .ok (db, setCartQty cart pid new_quantity)) := by
    unfold update_quantity
    rw [hfind]
    dsimp only
    rw [hsku]
  constructor
  · intro hpos
    constructor
    · intro db2 hok
      rw [heq, if_pos hpos, hok]
    · intro e herr
      rw [heq, if_pos hpos, herr]
  · intro hneg
    rw [heq, if_neg (by omega), if_pos hneg]

/-- Witness for update_quantity_spec: raising a cart line from 2 to 5 with
enough stock reserves 3 more and stores the new quantity. -/
theorem update_quantity_spec_witness :
    update_quantity [("A", (⟨10, 2⟩ : Inventory))] [⟨1, some "A", 2⟩] 1 5 =
      .ok (setInventory [("A", ⟨10, 2⟩)] "A" ⟨10, 5⟩,
           setCartQty [⟨1, some "A", 2⟩] 1 5) := by
  refine ((update_quantity_spec [("A", ⟨10, 2⟩)] [⟨1, some "A", 2⟩] 1 5
    ⟨1, some "A", 2⟩ "A" rfl rfl).1 (by decide)).1 _ ?_
  rfl

/-- One pass of the cancel restock loop, observed at a fixed SKU: a line
bearing that SKU adds its quantity (the adjustment succeeds because both
the running quantity and the line quantity are non-negative); any other
line leaves that SKU's row unchanged, whether its own adjustment succeeds,
fails, or is skipped. -/
theorem cancelRestockStep_lookup (db : Db) (it : OrderItem) (s : String)
    (q r : Int) (h : getInventory db s = some ⟨q, r⟩) (h0 : 0 ≤ q)
    (hit : 0 ≤ it.quantity) :
    getInventory (cancelRestockStep db it) s =
      some ⟨q + (if it.sku = some s then it.quantity else 0), r⟩ := by
  unfold cancelRestockStep
  cases hsku : it.sku with
  | none => simp [h]
  | some s2 =>
    dsimp only
    by_cases hs : s2 = s
    · subst hs
      have hcond : ¬((⟨q, r⟩ : Inventory).quantity + it.quantity < 0) := by
        dsimp only
        omega
      rw [adjust_stock_eq db s2 it.quantity ⟨q, r⟩ h, if_neg hcond]
      dsimp only
      rw [getInventory_setInventory_self db s2 _ ⟨q, r⟩ h]
      simp
    · have hs2 : s ≠ s2 := fun hc => hs hc.symm
      rcases hget2 : getInventory db s2 with _ | inv2
      · rw [show adjust_stock db s2 it.quantity = .error .notFound from by
          unfold adjust_stock
          rw [hget2]]
        dsimp only
        rw [h]
        simp [hs]
      · rw [adjust_stock_eq db s2 it.quantity inv2 hget2]
        by_cases hc : inv2.quantity + it.quantity < 0
        · rw [if_pos hc]
          dsimp only
          rw [h]
          simp [hs]
        · rw [if_neg hc]
          dsimp only
          rw [getInventory_setInventory_ne db s2 s _ hs2, h]
          simp [hs]

/-- Folding the cancel restock loop over all order lines adds, at every SKU,
the total quantity of the lines bearing that SKU, leaving
reserved_quantity unchanged. -/
theorem restock_foldl (s : String) :
    ∀ (items : List OrderItem) (db : Db) (q r : Int),
      (∀ it ∈ items, 0 ≤ it.quantity) →
      getInventory db s = some ⟨q, r⟩ → 0 ≤ q →
      getInventory (items.foldl cancelRestockStep db) s =
        some ⟨q + restockTotal items s, r⟩ := by
  intro items
  induction items with
  | nil =>
    intro db q r hq h h0
    simpa [restockTotal] using h
  | cons it rest ih =>
    intro db q r hq h h0
    rw [List.foldl_cons]
    have hstep := cancelRestockStep_lookup db it s q r h h0
      (hq it (List.mem_cons_self it rest))
    have hif : 0 ≤ q + (if it.sku = some s then it.quantity else 0) := by
      by_cases hx : it.sku = some s
      · rw [if_pos hx]
        have := hq it (List.mem_cons_self it rest)
        omega
      · rw [if_neg hx]
        omega
    have hnext := ih (cancelRestockStep db it)
      (q + (if it.sku = some s then it.quantity else 0)) r
      (fun x hx => hq x (List.mem_cons_of_mem it hx)) hstep hif
    rw [hnext]
    simp [restockTotal, add_assoc]

/-- C5 amended: update_order_status never touches the inventory database (so
a transition to cancelled performs no AdjustStock); the stock restoration
lives in cancel_order, which on any pending or confirmed order runs
adjust_stock(sku, +qty) over every line item that has a SKU: for every SKU
the resulting database holds the old quantity plus the total quantity of
that order's lines bearing the SKU, with reserved_quantity unchanged, and
the order comes back with status cancelled. -/
theorem cancel_order_restock (db : Db) (order : OrderRec) (s : String)
    (q r : Int)
    (hst : order.status = .pending ∨ order.status = .confirmed)
    (hq : ∀ it ∈ order.items, 0 ≤ it.quantity)
    (h : getInventory db s = some ⟨q, r⟩) (h0 : 0 ≤ q) :
    (∀ (o : OrderRec) (n : OrderStatus) (db2 : Db) (o2 : OrderRec),
        update_order_status db o n = .ok (db2, o2) → db2 = db) ∧
    cancel_order db order =
      .ok (order.items.foldl cancelRestockStep db,
           { order with status := .cancelled }) ∧
    getInventory (order.items.foldl cancelRestockStep db) s =
      some ⟨q + restockTotal order.items s, r⟩ := by
  refine ⟨?_, ?_, ?_⟩
  · intro o n db2 o2 hok
    unfold update_order_status at hok
    split at hok
    · simp only [Except.ok.injEq, Prod.mk.injEq] at hok
      exact hok.1.symm
    · exact Except.noConfusion hok
  · unfold cancel_order
    rw [if_pos hst]
    have hfun : (fun (d : Db) (item : OrderItem) =>
        match item.sku with
        | some sku =>
          match adjust_stock d sku item.quantity with
          | Except.ok d2 => d2
          | Except.error _ => d
        | none => d) = cancelRestockStep := by
      funext d item
      unfold cancelRestockStep
      cases item.sku <;> rfl
    rw [hfun]
  · exact restock_foldl s order.items db q r hq h h0

/-- Witness for cancel_order_restock on a three-line order (two distinct
SKUs and one line without a SKU), observed at the first SKU. -/
theorem cancel_order_restock_witness :
    cancel_order [("A", (⟨5, 0⟩ : Inventory)), ("B", ⟨3, 1⟩)]
        ⟨.pending, [⟨some "A", 2⟩, ⟨some "B", 1⟩, ⟨none, 4⟩]⟩ =
      .ok ([⟨some "A", 2⟩, ⟨some "B", 1⟩, ⟨none, 4⟩].foldl cancelRestockStep
             [("A", ⟨5, 0⟩), ("B", ⟨3, 1⟩)],
           ⟨.cancelled, [⟨some "A", 2⟩, ⟨some "B", 1⟩, ⟨none, 4⟩]⟩) ∧
    getInventory ([⟨some "A", 2⟩, ⟨some "B", 1⟩, ⟨none, 4⟩].foldl
        cancelRestockStep [("A", ⟨5, 0⟩), ("B", ⟨3, 1⟩)]) "A" =
      some ⟨5 + restockTotal [⟨some "A", 2⟩, ⟨some "B", 1⟩, ⟨none, 4⟩] "A", 0⟩ := by
  have hmain := cancel_order_restock [("A", ⟨5, 0⟩), ("B", ⟨3, 1⟩)]
    ⟨.pending, [⟨some "A", 2⟩, ⟨some "B", 1⟩, ⟨none, 4⟩]⟩ "A" 5 0
    (Or.inl rfl) (by decide) rfl (by decide)
  exact ⟨hmain.2.1, hmain.2.2⟩
